import Mathlib

/-
Verification of the natural-language specification of
MCP_Network_automator against a shallow embedding of
src/agent_client/cisco_agent.py (class AgentCiscoClient).

Modelling choices, all traced to the source:
- Python `str.strip()` is modelled as stripping ASCII whitespace from both
  ends (space, tab, newline, carriage return, vertical tab, form feed).
- Python `s.split("\n")` is `pySplitLines` (identical semantics: keeps
  empty segments, `"".split` gives `[""]`).
- `"!" in output` for the one-character needle is membership of the
  character `!` in the string (`containsBang`); `s.startswith(pre)` is
  the list prefix test (`pyStartsWith`).
- The netmiko transport is external; each operation takes the outcome of
  `ConnectHandler(...)` and of the in-session send as parameters
  (`ConnectOutcome`, `SendOutcome`).  The two exception types the code
  catches — NetmikoTimeoutException and NetmikoAuthenticationException —
  are the `Fault` type.
- `with ConnectHandler(...) as connection:` — netmiko's `__exit__` calls
  `self.disconnect()`, so leaving the block after a successful
  `ConnectHandler` always appends one `disconnect` event, in addition to
  any explicit `connection.disconnect()` the body executed.
- Each operation returns the Python return value (`Option String`, `none`
  for Python `None`), the mutated client state (the code assigns into
  `self.device_info_cisco` in place), and the trace of session-layer
  events in order.
-/

namespace AgentCisco

/-- Characters stripped by Python `str.strip()`, restricted to ASCII. -/
def isPyWhitespace (c : Char) : Bool :=
  c == ' ' || c == '\t' || c == '\n' || c == '\r' || c.toNat == 11 || c.toNat == 12

/-- Strip leading and trailing whitespace from a character list. -/
def stripChars (l : List Char) : List Char :=
  ((l.dropWhile isPyWhitespace).reverse.dropWhile isPyWhitespace).reverse

/-- Python `s.strip()`. -/
def pyStrip (s : String) : String := ⟨stripChars s.data⟩

/-- The list comprehension `[c.strip() for c in l if c.strip()]`
(cisco_agent.py lines 95 and 97): strip every entry, keep the non-blank
ones.  Python truthiness of a string is non-emptiness. -/
def stripFilter (l : List String) : List String :=
  (l.map pyStrip).filter (fun s => s != "")

/-- Split a character list at every occurrence of `sep`, keeping empty
segments, exactly like Python `str.split(sep)` with a one-character
separator: the empty string yields one empty segment. -/
def splitOnChar (sep : Char) : List Char → List (List Char)
  | [] => [[]]
  | c :: rest =>
      let r := splitOnChar sep rest
      if c == sep then [] :: r
      else
        match r with
        | [] => [[c]]
        | h :: t => (c :: h) :: t

/-- Python `s.split("\n")`. -/
def pySplitLines (s : String) : List String := (splitOnChar '\n' s.data).map String.mk

/-- Is the first list a prefix of the second? -/
def isPrefixList : List Char → List Char → Bool
  | [], _ => true
  | _ :: _, [] => false
  | a :: l, b :: m => a == b && isPrefixList l m

/-- Python `s.startswith(pre)`. -/
def pyStartsWith (s pre : String) : Bool := isPrefixList pre.data s.data

/-- Python `"!" in output` for the one-character needle: does the text
contain the character `!` anywhere? -/
def containsBang : List Char → Bool
  | [] => false
  | c :: rest => c == '!' || containsBang rest

/-- The `commands` argument of `config_command`: either a single text
block (Python `str`) or an explicit sequence (Python `list`). -/
inductive CommandInput where
  | block (s : String)
  | seq (l : List String)
deriving DecidableEq

/-- Normalization performed inside `config_command` (lines 93-97): a
string is first split on newlines and strip-filtered (line 95), then the
resulting list is strip-filtered again (line 97); a list input only goes
through line 97. -/
def normalizeCommands : CommandInput → List String
  | .block s => stripFilter (stripFilter (pySplitLines s))
  | .seq l => stripFilter l

/-- The two transport exception types caught by every operation. -/
inductive Fault where
  | timeout
  | authFail
deriving DecidableEq

/-- The terminal string each `except` clause returns (lines 69-74,
112-117, 141-146). -/
def faultMessage : Fault → String
  | .timeout => "Timeout error"
  | .authFail => "Authentication error"

/-- Outcome of `ConnectHandler(**self.device_info_cisco)`. -/
inductive ConnectOutcome where
  | ok
  | fault (f : Fault)
deriving DecidableEq

/-- Outcome of the in-session send (`send_command` / `send_config_set`). -/
inductive SendOutcome where
  | ok (output : String)
  | fault (f : Fault)
deriving DecidableEq

/-- The mutable fields of an `AgentCiscoClient` instance:
`device_info_cisco`, `device_info_linux` and `api_key`.  Credential
entries are `Option String` because the constructor defaults them to
Python `None`. -/
structure ClientState where
  ciscoDeviceType : String
  ciscoHost : Option String
  ciscoUsername : Option String
  ciscoPassword : Option String
  linuxDeviceType : String
  linuxHost : Option String
  linuxUsername : Option String
  linuxPassword : Option String
  apiKey : Option String
deriving DecidableEq

/-- `AgentCiscoClient.__init__(HOST, USERNAME, PASSWORD)` (lines 17-41);
`apiKey` is whatever `os.getenv("API_KEY")` returned. -/
def initClient (HOST USERNAME PASSWORD apiKey : Option String) : ClientState :=
  { ciscoDeviceType := "cisco_ios"
    ciscoHost := HOST
    ciscoUsername := USERNAME
    ciscoPassword := PASSWORD
    linuxDeviceType := "linux"
    linuxHost := HOST
    linuxUsername := USERNAME
    linuxPassword := PASSWORD
    apiKey := apiKey }

/-- The three assignments `self.device_info_cisco['host'|'username'|'password'] = ...`
each operation performs on entry. -/
def setCisco (st : ClientState) (H U P : String) : ClientState :=
  { st with ciscoHost := some H, ciscoUsername := some U, ciscoPassword := some P }

/-- Session-layer events, in the order the operation issues them.
`connect` is an invocation of `ConnectHandler` with the full device dict;
`sendCommand` carries the keyword arguments the code passes
(read_timeout, expect_string, strip_prompt, strip_command);
`sendConfigSet` carries the command list and the read timeout (the code
passes none, so the library default applies); `disconnect` is one
invocation of `connection.disconnect()`, whether explicit or from the
context manager's `__exit__`. -/
inductive SessionEvent where
  | connect (deviceType : String) (host username password : Option String)
  | enable
  | sendCommand (cmd : String) (readTimeout : Option Nat)
      (expectString : Option String) (stripPrompt stripCmd : Bool)
  | sendConfigSet (cmds : List String) (readTimeout : Option Nat)
  | disconnect
deriving DecidableEq

/-- What one operation call produces: the Python return value (`none`
is Python `None`), the client state after the call, and the session
event trace. -/
structure OpResult where
  ret : Option String
  state : ClientState
  events : List SessionEvent
deriving DecidableEq

/-- `AgentCiscoClient.show_command` (lines 43-74).  Overwrites the stored
cisco credentials, connects, sends the command with `read_timeout=20`,
disconnects explicitly and again via the context manager on return;
transport faults become the fault message string. -/
def show_command (st : ClientState) (command HOST USERNAME PASSWORD : String)
    (conn : ConnectOutcome) (send : SendOutcome) : OpResult :=
  let st' := setCisco st HOST USERNAME PASSWORD
  let cev := SessionEvent.connect st'.ciscoDeviceType st'.ciscoHost
      st'.ciscoUsername st'.ciscoPassword
  match conn with
  | .fault f => ⟨some (faultMessage f), st', [cev]⟩
  | .ok =>
    let sev := SessionEvent.sendCommand command (some 20) none true true
    match send with
    | .fault f => ⟨some (faultMessage f), st', [cev, sev, .disconnect]⟩
    | .ok output =>
        ⟨some output, st', [cev, sev, .disconnect, .disconnect]⟩

/-- `AgentCiscoClient.config_command` (lines 76-117).  Overwrites the
stored cisco credentials, connects, enters enable mode, THEN normalizes
the input; an empty normalized list returns Python `None` (the context
manager still disconnects); otherwise `send_config_set` is called with
no explicit read timeout, then an explicit disconnect plus the context
manager's. -/
def config_command (st : ClientState) (commands : CommandInput)
    (HOST USERNAME PASSWORD : String)
    (conn : ConnectOutcome) (send : SendOutcome) : OpResult :=
  let st' := setCisco st HOST USERNAME PASSWORD
  let cev := SessionEvent.connect st'.ciscoDeviceType st'.ciscoHost
      st'.ciscoUsername st'.ciscoPassword
  match conn with
  | .fault f => ⟨some (faultMessage f), st', [cev]⟩
  | .ok =>
    let cmds := normalizeCommands commands
    if cmds = [] then
      ⟨none, st', [cev, .enable, .disconnect]⟩
    else
      match send with
      | .fault f =>
          ⟨some (faultMessage f), st',
            [cev, .enable, .sendConfigSet cmds none, .disconnect]⟩
      | .ok output =>
          ⟨some output, st',
            [cev, .enable, .sendConfigSet cmds none, .disconnect, .disconnect]⟩

/-- `AgentCiscoClient.ping_cisco_command` (lines 119-146).  Rejects a
command not starting with `"ping"` before touching state or connecting;
otherwise overwrites the stored cisco credentials, connects, sends with
`read_timeout=30, expect_string="#", strip_prompt=False,
strip_command=False`, and classifies output by presence of `!`.  There is
no explicit disconnect: only the context manager's. -/
def ping_cisco_command (st : ClientState) (command HOST USERNAME PASSWORD : String)
    (conn : ConnectOutcome) (send : SendOutcome) : OpResult :=
  if pyStartsWith command "ping" then
    let st' := setCisco st HOST USERNAME PASSWORD
    let cev := SessionEvent.connect st'.ciscoDeviceType st'.ciscoHost
        st'.ciscoUsername st'.ciscoPassword
    match conn with
    | .fault f => ⟨some (faultMessage f), st', [cev]⟩
    | .ok =>
      let sev := SessionEvent.sendCommand command (some 30) (some "#") false false
      match send with
      | .fault f => ⟨some (faultMessage f), st', [cev, sev, .disconnect]⟩
      | .ok output =>
          if containsBang output.data then
            ⟨some output, st', [cev, sev, .disconnect]⟩
          else
            ⟨some "Ping failed. No response received.", st',
              [cev, sev, .disconnect]⟩
  else
    ⟨some "Invalid command. Please use 'ping' command.", st, []⟩

/-- Is this event an invocation of `ConnectHandler`? -/
def isConnectEvent : SessionEvent → Bool
  | .connect _ _ _ _ => true
  | _ => false

/-- Is this event an invocation of `connection.disconnect()`? -/
def isDisconnectEvent : SessionEvent → Bool
  | .disconnect => true
  | _ => false

/-- Is this event a device read (`send_command` or `send_config_set`)? -/
def isSendEvent : SessionEvent → Bool
  | .sendCommand _ _ _ _ _ => true
  | .sendConfigSet _ _ => true
  | _ => false

/-- Does this event issue a device read with the given explicit read
timeout (in seconds)? -/
def hasReadTimeout (n : Nat) : SessionEvent → Bool
  | .sendCommand _ rt _ _ _ => rt == some n
  | .sendConfigSet _ rt => rt == some n
  | _ => false

/-- Number of `ConnectHandler` invocations in a trace. -/
def connectCount (evs : List SessionEvent) : Nat :=
  (evs.filter isConnectEvent).length

/-- Number of `disconnect()` invocations in a trace. -/
def disconnectCount (evs : List SessionEvent) : Nat :=
  (evs.filter isDisconnectEvent).length

/-- Scans a trace left to right carrying whether `enable` has already
been issued; holds when every `send_config_set` happens with the flag
set, i.e. strictly after an `enable`. -/
def configSendsAfterEnable : List SessionEvent → Bool → Bool
  | [], _ => true
  | .enable :: rest, _ => configSendsAfterEnable rest true
  | .sendConfigSet _ _ :: rest, enabled =>
      enabled && configSendsAfterEnable rest enabled
  | _ :: rest, enabled => configSendsAfterEnable rest enabled

/-- First whitespace-separated token of a command line. -/
def leadingToken (s : String) : String := ⟨(splitOnChar ' ' s.data).headD []⟩

/-- `stripChars` is right-drop after left-drop of whitespace. -/
lemma stripChars_eq_rdropWhile (l : List Char) :
    stripChars l = List.rdropWhile isPyWhitespace (l.dropWhile isPyWhitespace) := rfl

/-- Stripping an already stripped character list changes nothing. -/
lemma stripChars_idem (l : List Char) : stripChars (stripChars l) = stripChars l := by
  simp only [stripChars_eq_rdropWhile]
  have hdw : (List.rdropWhile isPyWhitespace (l.dropWhile isPyWhitespace)).dropWhile
      isPyWhitespace = List.rdropWhile isPyWhitespace (l.dropWhile isPyWhitespace) := by
    rcases h0 : List.rdropWhile isPyWhitespace (l.dropWhile isPyWhitespace) with _ | ⟨a, t⟩
    · simp
    · obtain ⟨t', ht'⟩ := List.rdropWhile_prefix isPyWhitespace (l.dropWhile isPyWhitespace)
      rw [h0] at ht'
      have hsome : (l.dropWhile isPyWhitespace).head? = some a := by
        rw [← ht']; rfl
      have h2 := List.head?_dropWhile_not isPyWhitespace l
      rw [hsome] at h2
      have h3 : isPyWhitespace a = false := h2
      simp [List.dropWhile_cons, h3]
  rw [hdw, List.rdropWhile_idempotent]

/-- Python `strip` is idempotent. -/
lemma pyStrip_idem (s : String) : pyStrip (pyStrip s) = pyStrip s :=
  congrArg String.mk (stripChars_idem s.data)

/-- Every entry surviving `stripFilter` is already stripped. -/
lemma stripFilter_mem_strip {x : String} {l : List String} (hx : x ∈ stripFilter l) :
    pyStrip x = x := by
  unfold stripFilter at hx
  have hm : x ∈ l.map pyStrip := (List.mem_filter.mp hx).1
  obtain ⟨a, _, rfl⟩ := List.mem_map.mp hm
  exact pyStrip_idem a

/-- The strip-and-drop-blanks pass is idempotent. -/
lemma stripFilter_idem (l : List String) :
    stripFilter (stripFilter l) = stripFilter l := by
  have hmap : (stripFilter l).map pyStrip = stripFilter l := by
    have h := List.map_congr_left
      (fun a (ha : a ∈ stripFilter l) => stripFilter_mem_strip ha)
    rw [h, List.map_id']
  show ((stripFilter l).map pyStrip).filter (fun s => s != "") = stripFilter l
  rw [hmap]
  unfold stripFilter
  rw [List.filter_filter]
  simp

/-- A concrete client, as built by `AgentCiscoClient(...)`, used to
instantiate universally quantified theorems. -/
def stW : ClientState := initClient (some "10.1.1.1") (some "admin") (some "pw") none

/-- C7: a multi-line block and the explicit sequence of its lines
normalize to the identical command sequence, and normalizing an already
normalized sequence leaves it unchanged. -/
theorem c7_normalization_idempotent :
    (∀ b : String,
      normalizeCommands (.block b) = normalizeCommands (.seq (pySplitLines b))) ∧
    (∀ x : CommandInput,
      normalizeCommands (.seq (normalizeCommands x)) = normalizeCommands x) := by
  constructor
  · intro b
    simp [normalizeCommands, stripFilter_idem]
  · intro x
    cases x <;> simp [normalizeCommands, stripFilter_idem]

/-- C3: with a well-formed ping command and a completed device read, the
operation returns the raw output exactly when the output contains the
success marker `!`, and the fixed "no response" failure string when it
contains none. -/
theorem c3_ping_success_marker (st : ClientState)
    (command HOST USERNAME PASSWORD output : String)
    (hping : pyStartsWith command "ping" = true) :
    (containsBang output.data = true →
      (ping_cisco_command st command HOST USERNAME PASSWORD .ok (.ok output)).ret
        = some output) ∧
    (containsBang output.data = false →
      (ping_cisco_command st command HOST USERNAME PASSWORD .ok (.ok output)).ret
        = some "Ping failed. No response received.") := by
  constructor <;> intro h <;> simp [ping_cisco_command, hping, h]

/-- Witness for C3 at concrete inputs. -/
theorem c3_ping_success_marker_witness :
    (pyStartsWith "ping 10.0.0.1" "ping" = true) ∧
    (containsBang "!!!!!".data = true) ∧
    (ping_cisco_command stW "ping 10.0.0.1" "10.0.0.9" "admin" "pw" .ok
        (.ok "!!!!!")).ret = some "!!!!!" ∧
    (containsBang ".....".data = false) ∧
    (ping_cisco_command stW "ping 10.0.0.1" "10.0.0.9" "admin" "pw" .ok
        (.ok ".....")).ret = some "Ping failed. No response received." :=
  ⟨by decide, by decide,
    (c3_ping_success_marker stW "ping 10.0.0.1" "10.0.0.9" "admin" "pw" "!!!!!"
      (by decide)).1 (by decide),
    by decide,
    (c3_ping_success_marker stW "ping 10.0.0.1" "10.0.0.9" "admin" "pw" "....."
      (by decide)).2 (by decide)⟩

/-- C1 is falsified at the empty block: the normalization is empty, yet
`config_command` still invokes `ConnectHandler` (the emptiness check only
happens after connecting and entering enable mode). -/
theorem c1_counterexample :
    normalizeCommands (.block "") = [] ∧
    connectCount (config_command stW (.block "") "10.0.0.2" "admin" "pw" .ok
      (.ok "out")).events = 1 := by
  constructor
  · rfl
  · rfl

/-- C1 (amended): with an input that is empty after normalization and a
successful connect, `config_command` returns Python `None` and sends no
configuration, but only after `ConnectHandler` and `enable` have run; the
context manager then closes the session. -/
theorem c1_empty_config_returns_none (st : ClientState) (input : CommandInput)
    (H U P : String) (send : SendOutcome)
    (hempty : normalizeCommands input = []) :
    (config_command st input H U P .ok send).ret = none ∧
    (config_command st input H U P .ok send).events =
      [.connect st.ciscoDeviceType (some H) (some U) (some P), .enable, .disconnect] := by
  simp [config_command, hempty, setCisco]

/-- Witness for the amended C1 at a concrete whitespace-only block. -/
theorem c1_empty_config_returns_none_witness :
    normalizeCommands (.block "  \n \n") = [] ∧
    (config_command stW (.block "  \n \n") "10.0.0.2" "admin" "pw" .ok
      (.ok "out")).ret = none :=
  ⟨by decide,
    (c1_empty_config_returns_none stW (.block "  \n \n") "10.0.0.2" "admin" "pw"
      (.ok "out") (by decide)).1⟩

/-- C2 is falsified at `"pinger 10.0.0.1"`: its leading token is not the
ping verb, yet the code's prefix test `startswith("ping")` accepts it, a
session is opened and the raw output is returned instead of the invalid
message. -/
theorem c2_counterexample :
    leadingToken "pinger 10.0.0.1" ≠ "ping" ∧
    (ping_cisco_command stW "pinger 10.0.0.1" "10.0.0.9" "admin" "pw" .ok
      (.ok "!!!")).ret = some "!!!" ∧
    connectCount (ping_cisco_command stW "pinger 10.0.0.1" "10.0.0.9" "admin" "pw" .ok
      (.ok "!!!")).events = 1 := by
  refine ⟨by decide, ?_, ?_⟩ <;> rfl

/-- C2 (amended): for every ping input that does not start with the
literal prefix `"ping"`, the operation returns the invalid-command
message immediately, opens no session and leaves the client state
untouched. -/
theorem c2_nonping_prefix_rejected (st : ClientState) (command H U P : String)
    (conn : ConnectOutcome) (send : SendOutcome)
    (h : pyStartsWith command "ping" = false) :
    (ping_cisco_command st command H U P conn send).ret
        = some "Invalid command. Please use 'ping' command." ∧
    (ping_cisco_command st command H U P conn send).events = [] ∧
    (ping_cisco_command st command H U P conn send).state = st := by
  simp [ping_cisco_command, h]

/-- Witness for the amended C2 at a concrete non-ping command. -/
theorem c2_nonping_prefix_rejected_witness :
    (pyStartsWith "show version" "ping" = false) ∧
    (ping_cisco_command stW "show version" "10.0.0.9" "admin" "pw" .ok
      (.ok "out")).events = [] :=
  ⟨by decide,
    (c2_nonping_prefix_rejected stW "show version" "10.0.0.9" "admin" "pw" .ok
      (.ok "out") (by decide)).2.1⟩

/-- C4: every transport-level fault (timeout or authentication failure)
raised at connect time or during the in-session send is caught and turned
into the corresponding terminal string; the operations are total, so no
transport exception escapes the facade. -/
theorem c4_transport_faults_caught (st : ClientState) (c pc H U P : String)
    (input : CommandInput) (f : Fault) (send : SendOutcome)
    (hping : pyStartsWith pc "ping" = true)
    (hne : normalizeCommands input ≠ []) :
    faultMessage .timeout = "Timeout error" ∧
    faultMessage .authFail = "Authentication error" ∧
    (show_command st c H U P (.fault f) send).ret = some (faultMessage f) ∧
    (show_command st c H U P .ok (.fault f)).ret = some (faultMessage f) ∧
    (config_command st input H U P (.fault f) send).ret = some (faultMessage f) ∧
    (config_command st input H U P .ok (.fault f)).ret = some (faultMessage f) ∧
    (ping_cisco_command st pc H U P (.fault f) send).ret = some (faultMessage f) ∧
    (ping_cisco_command st pc H U P .ok (.fault f)).ret = some (faultMessage f) := by
  refine ⟨rfl, rfl, rfl, rfl, rfl, ?_, ?_, ?_⟩ <;>
    simp [show_command, config_command, ping_cisco_command, hping, hne]

/-- Witness for C4 at concrete inputs. -/
theorem c4_transport_faults_caught_witness :
    (pyStartsWith "ping 10.0.0.1" "ping" = true) ∧
    (normalizeCommands (.seq ["hostname R1"]) ≠ []) ∧
    (show_command stW "show version" "10.0.0.9" "admin" "pw" (.fault .timeout)
      (.ok "out")).ret = some "Timeout error" ∧
    (ping_cisco_command stW "ping 10.0.0.1" "10.0.0.9" "admin" "pw" .ok
      (.fault .authFail)).ret = some "Authentication error" := by
  refine ⟨by decide, by decide, ?_, ?_⟩
  · exact (c4_transport_faults_caught stW "show version" "ping 10.0.0.1" "10.0.0.9"
      "admin" "pw" (.seq ["hostname R1"]) .timeout (.ok "out")
      (by decide) (by decide)).2.2.1
  · exact (c4_transport_faults_caught stW "show version" "ping 10.0.0.1" "10.0.0.9"
      "admin" "pw" (.seq ["hostname R1"]) .authFail (.ok "out")
      (by decide) (by decide)).2.2.2.2.2.2.2

/-- C5 is falsified on the success path of `show_command`: one session is
opened but `disconnect` is invoked twice — once explicitly at line 64 and
once more by the context manager's `__exit__`. -/
theorem c5_counterexample :
    connectCount (show_command stW "show version" "10.0.0.9" "admin" "pw" .ok
      (.ok "out")).events = 1 ∧
    disconnectCount (show_command stW "show version" "10.0.0.9" "admin" "pw" .ok
      (.ok "out")).events = 2 := by
  exact ⟨rfl, rfl⟩

/-- C5 (amended): every opened session is closed at least once on every
path (the context manager guarantees release), and the exact counts are:
two disconnects on the success paths of `show_command` and
`config_command` (explicit call plus context exit), one on every
in-session fault path and on every `ping_cisco_command` path that opened
a session, and none when `ConnectHandler` itself failed or the ping
prefix check rejected the command (no session to close). -/
theorem c5_disconnect_counts (st : ClientState) (c H U P out : String)
    (input : CommandInput) (f : Fault) :
    disconnectCount (show_command st c H U P .ok (.ok out)).events = 2 ∧
    disconnectCount (show_command st c H U P .ok (.fault f)).events = 1 ∧
    disconnectCount (show_command st c H U P (.fault f) (.ok out)).events = 0 ∧
    disconnectCount (config_command st input H U P (.fault f) (.ok out)).events = 0 ∧
    disconnectCount (config_command st input H U P .ok (.fault f)).events = 1 ∧
    disconnectCount (config_command st input H U P .ok (.ok out)).events =
      (if normalizeCommands input = [] then 1 else 2) ∧
    disconnectCount (ping_cisco_command st c H U P (.fault f) (.ok out)).events = 0 ∧
    disconnectCount (ping_cisco_command st c H U P .ok (.ok out)).events =
      (if pyStartsWith c "ping" then 1 else 0) ∧
    disconnectCount (ping_cisco_command st c H U P .ok (.fault f)).events =
      (if pyStartsWith c "ping" then 1 else 0) := by
  refine ⟨rfl, rfl, rfl, rfl, ?_, ?_, ?_, ?_, ?_⟩
  · by_cases h : normalizeCommands input = [] <;>
      simp [config_command, h, disconnectCount, isDisconnectEvent]
  · by_cases h : normalizeCommands input = [] <;>
      simp [config_command, h, disconnectCount, isDisconnectEvent]
  · cases hc : pyStartsWith c "ping" <;>
      simp [ping_cisco_command, hc, disconnectCount, isDisconnectEvent]
  · cases hc : pyStartsWith c "ping" <;>
      cases hb : containsBang out.data <;>
      simp [ping_cisco_command, hc, hb, disconnectCount, isDisconnectEvent]
  · cases hc : pyStartsWith c "ping" <;>
      simp [ping_cisco_command, hc, disconnectCount, isDisconnectEvent]

/-- C6 is falsified for `config_command`: its device read
(`send_config_set`, line 103) is issued with no explicit read timeout at
all, so no event of the configure trace carries the claimed 20-second
deadline. -/
theorem c6_counterexample :
    ((config_command stW (.seq ["hostname R1"]) "10.0.0.2" "admin" "pw" .ok
      (.ok "out")).events.any isSendEvent = true) ∧
    ((config_command stW (.seq ["hostname R1"]) "10.0.0.2" "admin" "pw" .ok
      (.ok "out")).events.any (hasReadTimeout 20) = false) := by
  exact ⟨rfl, rfl⟩

/-- C6 (amended): `show_command` issues its single device read with an
explicit 20-second read timeout and `ping_cisco_command` with a
30-second one, while `config_command` issues `send_config_set` with no
explicit read timeout (the library default applies); a timeout fault on
any operation yields the terminal "Timeout error" string. -/
theorem c6_read_timeouts (st : ClientState) (c pc H U P out : String)
    (input : CommandInput)
    (hping : pyStartsWith pc "ping" = true)
    (hne : normalizeCommands input ≠ []) :
    (show_command st c H U P .ok (.ok out)).events.filter isSendEvent
      = [.sendCommand c (some 20) none true true] ∧
    (ping_cisco_command st pc H U P .ok (.ok out)).events.filter isSendEvent
      = [.sendCommand pc (some 30) (some "#") false false] ∧
    (config_command st input H U P .ok (.ok out)).events.filter isSendEvent
      = [.sendConfigSet (normalizeCommands input) none] ∧
    (show_command st c H U P .ok (.fault .timeout)).ret = some "Timeout error" ∧
    (ping_cisco_command st pc H U P .ok (.fault .timeout)).ret = some "Timeout error" ∧
    (config_command st input H U P .ok (.fault .timeout)).ret = some "Timeout error" := by
  refine ⟨rfl, ?_, ?_, rfl, ?_, ?_⟩
  · cases hb : containsBang out.data <;>
      simp [ping_cisco_command, hping, hb, isSendEvent]
  · simp [config_command, hne, isSendEvent]
  · simp [ping_cisco_command, hping, faultMessage]
  · simp [config_command, hne, faultMessage]

/-- Witness for the amended C6 at concrete inputs. -/
theorem c6_read_timeouts_witness :
    (pyStartsWith "ping 10.0.0.1" "ping" = true) ∧
    (normalizeCommands (.seq ["hostname R1"]) ≠ []) ∧
    (show_command stW "show version" "10.0.0.9" "admin" "pw" .ok
      (.ok "out")).events.filter isSendEvent
      = [.sendCommand "show version" (some 20) none true true] := by
  refine ⟨by decide, by decide, ?_⟩
  exact (c6_read_timeouts stW "show version" "ping 10.0.0.1" "10.0.0.9" "admin" "pw"
    "out" (.seq ["hostname R1"]) (by decide) (by decide)).1

/-- A client constructed with credentials distinct from any call's
arguments, to expose state mutation. -/
def stA : ClientState := initClient (some "hostA") (some "userA") (some "pwA") none

/-- C8 is falsified by `show_command`: the stored cisco host, a field of
the client observable by later calls, is overwritten with the call's
HOST argument, so it is changed after the call. -/
theorem c8_counterexample :
    stA.ciscoHost = some "hostA" ∧
    (show_command stA "show version" "hostB" "userB" "pwB" .ok
      (.ok "out")).state.ciscoHost = some "hostB" := by
  exact ⟨rfl, rfl⟩

/-- C8 (amended): each operation mutates exactly the stored cisco
credentials, overwriting host/username/password with its own arguments
(`ping_cisco_command` only when the prefix check passes); every other
client field — linux device info, api key, device types — is unchanged.
Because each call overwrites the credentials before connecting, the
mutation cannot influence a later call's result. -/
theorem c8_state_mutation (st : ClientState) (c H U P : String)
    (input : CommandInput) (conn : ConnectOutcome) (send : SendOutcome) :
    (show_command st c H U P conn send).state = setCisco st H U P ∧
    (config_command st input H U P conn send).state = setCisco st H U P ∧
    (ping_cisco_command st c H U P conn send).state
      = (if pyStartsWith c "ping" then setCisco st H U P else st) ∧
    (setCisco st H U P).linuxDeviceType = st.linuxDeviceType ∧
    (setCisco st H U P).linuxHost = st.linuxHost ∧
    (setCisco st H U P).linuxUsername = st.linuxUsername ∧
    (setCisco st H U P).linuxPassword = st.linuxPassword ∧
    (setCisco st H U P).apiKey = st.apiKey ∧
    (setCisco st H U P).ciscoDeviceType = st.ciscoDeviceType ∧
    (setCisco st H U P).ciscoHost = some H ∧
    (setCisco st H U P).ciscoUsername = some U ∧
    (setCisco st H U P).ciscoPassword = some P := by
  refine ⟨?_, ?_, ?_, rfl, rfl, rfl, rfl, rfl, rfl, rfl, rfl, rfl⟩
  · cases conn <;> cases send <;> rfl
  · cases conn with
    | fault f => rfl
    | ok =>
      by_cases h : normalizeCommands input = [] <;>
        cases send <;> simp [config_command, h]
  · cases hc : pyStartsWith c "ping" with
    | false => cases conn <;> cases send <;> simp [ping_cisco_command, hc]
    | true =>
      cases conn with
      | fault f => simp [ping_cisco_command, hc]
      | ok =>
        cases send with
        | fault f => simp [ping_cisco_command, hc]
        | ok out =>
          cases hb : containsBang out.data <;> simp [ping_cisco_command, hc, hb]

/-- C9: in every execution of `config_command`, whatever the transport
outcomes and input, any `send_config_set` event in the session trace
occurs strictly after the `enable` event. -/
theorem c9_enable_before_config_send (st : ClientState) (input : CommandInput)
    (H U P : String) (conn : ConnectOutcome) (send : SendOutcome) :
    configSendsAfterEnable (config_command st input H U P conn send).events false
      = true := by
  cases conn with
  | fault f => rfl
  | ok =>
    by_cases h : normalizeCommands input = []
    · simp [config_command, h, configSendsAfterEnable]
    · cases send <;> simp [config_command, h, configSendsAfterEnable]

/-- C10: the constructor's credentials never influence an operation's
result: any two clients as constructed by `__init__`, whatever their
credentials and environment-sourced api key, produce the identical return
value and identical session trace for the same call arguments, and the
connection is opened with the call's own credentials. -/
theorem c10_constructor_credentials_never_influence
    (H1 U1 P1 H2 U2 P2 k1 k2 : Option String)
    (c H U P : String) (input : CommandInput)
    (conn : ConnectOutcome) (send : SendOutcome) :
    ((show_command (initClient H1 U1 P1 k1) c H U P conn send).ret
      = (show_command (initClient H2 U2 P2 k2) c H U P conn send).ret) ∧
    ((show_command (initClient H1 U1 P1 k1) c H U P conn send).events
      = (show_command (initClient H2 U2 P2 k2) c H U P conn send).events) ∧
    ((config_command (initClient H1 U1 P1 k1) input H U P conn send).ret
      = (config_command (initClient H2 U2 P2 k2) input H U P conn send).ret) ∧
    ((config_command (initClient H1 U1 P1 k1) input H U P conn send).events
      = (config_command (initClient H2 U2 P2 k2) input H U P conn send).events) ∧
    ((ping_cisco_command (initClient H1 U1 P1 k1) c H U P conn send).ret
      = (ping_cisco_command (initClient H2 U2 P2 k2) c H U P conn send).ret) ∧
    ((ping_cisco_command (initClient H1 U1 P1 k1) c H U P conn send).events
      = (ping_cisco_command (initClient H2 U2 P2 k2) c H U P conn send).events) ∧
    ((show_command (initClient H1 U1 P1 k1) c H U P conn send).events.head?
      = some (.connect "cisco_ios" (some H) (some U) (some P))) := by
  refine ⟨?_, ?_, ?_, ?_, ?_, ?_, ?_⟩
  · cases conn <;> cases send <;> rfl
  · cases conn <;> cases send <;> rfl
  · cases conn with
    | fault f => rfl
    | ok =>
      by_cases h : normalizeCommands input = [] <;>
        cases send <;> simp [config_command, h, setCisco, initClient]
  · cases conn with
    | fault f => rfl
    | ok =>
      by_cases h : normalizeCommands input = [] <;>
        cases send <;> simp [config_command, h, setCisco, initClient]
  · cases hc : pyStartsWith c "ping" with
    | false => cases conn <;> cases send <;> simp [ping_cisco_command, hc, setCisco, initClient]
    | true =>
      cases conn with
      | fault f => simp [ping_cisco_command, hc, setCisco, initClient]
      | ok =>
        cases send with
        | fault f => simp [ping_cisco_command, hc, setCisco, initClient]
        | ok o =>
          cases hb : containsBang o.data <;> simp [ping_cisco_command, hc, hb, setCisco, initClient]
  · cases hc : pyStartsWith c "ping" with
    | false => cases conn <;> cases send <;> simp [ping_cisco_command, hc, setCisco, initClient]
    | true =>
      cases conn with
      | fault f => simp [ping_cisco_command, hc, setCisco, initClient]
      | ok =>
        cases send with
        | fault f => simp [ping_cisco_command, hc, setCisco, initClient]
        | ok o =>
          cases hb : containsBang o.data <;> simp [ping_cisco_command, hc, hb, setCisco, initClient]
  · cases conn <;> cases send <;> rfl

end AgentCisco
